import Mathlib

set_option maxRecDepth 10000

/-!
# Verification of the large-payload codec (`src/codec/python/codec.py`)

A shallow embedding of the Python `LargePayloadCodec` into Lean 4.

Machine bytes are modelled as `Nat` (conceptually `< 256`); Python `bytes`
values are `List Nat`.  Fallible Python code (statements that can raise) is
modelled with `Except PyError`.  Network requests issued through the
`requests` library are recorded in an explicit trace (`List NetCall`) so
that theorems can speak about which calls are performed; the remote blob
store itself is an abstract `RemoteStore` parameter supplied by the caller.
-/

namespace LPC

/-- Python `bytes`: a sequence of byte values. -/
abbrev Bytes := List Nat

/-- A Temporal `Payload` protobuf message:
`map<string, bytes> metadata = 1; bytes data = 2;`.
The metadata mapping is modelled as an ordered association list. -/
structure Payload where
  metadata : List (String × Bytes)
  data : Bytes
deriving DecidableEq, Repr

/-- The exceptions the Python code under `src/` can raise. -/
inductive PyError where
  /-- Python `TypeError` (e.g. `json.dumps` on bytes, `base64.b64decode` on an
  int, `hashlib.sha256` on a non-buffer object). -/
  | typeError
  /-- `requests` non-success status surfaced by `raise_for_status`. -/
  | httpError
  /-- The codec's own digest-mismatch `Exception` in `getLargePayload`. -/
  | integrityError
  /-- Failure of `converter.from_payloads` to parse a `RemotePayload`. -/
  | decodeError
deriving DecidableEq, Repr

/-- Decidable equality of `Except` results (not provided by core). -/
def exceptDecEq {ε α : Type} [DecidableEq ε] [DecidableEq α] :
    (a b : Except ε α) → Decidable (a = b)
  | Except.error e, Except.error f =>
    if h : e = f then isTrue (h ▸ rfl)
    else isFalse (fun hc => h (Except.error.inj hc))
  | Except.ok x, Except.ok y =>
    if h : x = y then isTrue (h ▸ rfl)
    else isFalse (fun hc => h (Except.ok.inj hc))
  | Except.error _, Except.ok _ => isFalse (fun hc => Except.noConfusion hc)
  | Except.ok _, Except.error _ => isFalse (fun hc => Except.noConfusion hc)

instance {ε α : Type} [DecidableEq ε] [DecidableEq α] : DecidableEq (Except ε α) :=
  exceptDecEq

/-- The dynamic type of a value handed to a Python library function, for the
places where the code passes a value of the wrong runtime type. -/
inductive PyValue where
  | int (n : Int)
  | str (s : String)
  | bytes (b : Bytes)
  /-- A raw HTTP response stream handle (`resp.raw`), not a bytes buffer. -/
  | stream
deriving Repr

/-! ## Digest engine: SHA-256 (`hashlib.sha256(...).hexdigest()`)

A direct executable embedding of FIPS 180-4 SHA-256 over byte lists, with
32-bit words as `Nat` reduced modulo `2 ^ 32`. -/

/-- Truncate to a 32-bit word. -/
def w32 (n : Nat) : Nat := n % 4294967296

/-- 32-bit rotate right. -/
def rotr32 (x n : Nat) : Nat := w32 ((x >>> n) ||| (x <<< (32 - n)))

/-- SHA-256 `Ch` function. -/
def shaCh (x y z : Nat) : Nat := (x &&& y) ^^^ ((4294967295 ^^^ x) &&& z)

/-- SHA-256 `Maj` function. -/
def shaMaj (x y z : Nat) : Nat := (x &&& y) ^^^ (x &&& z) ^^^ (y &&& z)

/-- SHA-256 big sigma 0. -/
def bsig0 (x : Nat) : Nat := rotr32 x 2 ^^^ rotr32 x 13 ^^^ rotr32 x 22

/-- SHA-256 big sigma 1. -/
def bsig1 (x : Nat) : Nat := rotr32 x 6 ^^^ rotr32 x 11 ^^^ rotr32 x 25

/-- SHA-256 small sigma 0. -/
def ssig0 (x : Nat) : Nat := rotr32 x 7 ^^^ rotr32 x 18 ^^^ (x >>> 3)

/-- SHA-256 small sigma 1. -/
def ssig1 (x : Nat) : Nat := rotr32 x 17 ^^^ rotr32 x 19 ^^^ (x >>> 10)

/-- The 64 SHA-256 round constants (FIPS 180-4, written in decimal). -/
def K256 : List Nat :=
  [1116352408, 1899447441, 3049323471, 3921009573, 961987163, 1508970993,
   2453635748, 2870763221, 3624381080, 310598401, 607225278, 1426881987,
   1925078388, 2162078206, 2614888103, 3248222580, 3835390401, 4022224774,
   264347078, 604807628, 770255983, 1249150122, 1555081692, 1996064986,
   2554220882, 2821834349, 2952996808, 3210313671, 3336571891, 3584528711,
   113926993, 338241895, 666307205, 773529912, 1294757372, 1396182291,
   1695183700, 1986661051, 2177026350, 2456956037, 2730485921, 2820302411,
   3259730800, 3345764771, 3516065817, 3600352804, 4094571909, 275423344,
   430227734, 506948616, 659060556, 883997877, 958139571, 1322822218,
   1537002063, 1747873779, 1955562222, 2024104815, 2227730452, 2361852424,
   2428436474, 2756734187, 3204031479, 3329325298]

/-- The SHA-256 initial hash value (FIPS 180-4, written in decimal). -/
def H256 : List Nat :=
  [1779033703, 3144134277, 1013904242, 2773480762, 1359893119, 2600822924,
   528734635, 1541459225]

/-- Big-endian 64-bit encoding of a number as eight bytes. -/
def be64 (n : Nat) : Bytes :=
  (List.range 8).map (fun i => n / 256 ^ (7 - i) % 256)

/-- SHA-256 message padding: append `0x80`, zeros to 56 mod 64, then the
64-bit big-endian bit length. -/
def padMessage (msg : Bytes) : Bytes :=
  let L := msg.length
  let z := (120 - (L + 1) % 64) % 64
  msg ++ [0x80] ++ List.replicate z 0 ++ be64 (8 * L)

/-- Split a byte list into successive 64-byte blocks (fuel-based so that the
definition is structural and kernel-reducible). -/
def chunks64Aux : Nat → Bytes → List Bytes
  | 0, _ => []
  | _, [] => []
  | fuel + 1, l => l.take 64 :: chunks64Aux fuel (l.drop 64)

/-- Split a byte list into successive 64-byte blocks. -/
def chunks64 (l : Bytes) : List Bytes := chunks64Aux l.length l

/-- The `i`-th big-endian 32-bit word of a 64-byte block. -/
def beWord (b : Bytes) (i : Nat) : Nat :=
  b.getD (4 * i) 0 * 16777216 + b.getD (4 * i + 1) 0 * 65536 +
    b.getD (4 * i + 2) 0 * 256 + b.getD (4 * i + 3) 0

/-- The 64-entry SHA-256 message schedule of one block. -/
def schedule (block : Bytes) : List Nat :=
  (List.range 64).foldl
    (fun W t =>
      if t < 16 then W ++ [beWord block t]
      else
        W ++ [w32 (ssig1 (W.getD (t - 2) 0) + W.getD (t - 7) 0 +
                   ssig0 (W.getD (t - 15) 0) + W.getD (t - 16) 0)])
    []

/-- One SHA-256 compression round applied to the state `[a,b,c,d,e,f,g,h]`. -/
def compressStep (W : List Nat) (st : List Nat) (t : Nat) : List Nat :=
  match st with
  | [a, b, c, d, e, f, g, h] =>
    let T1 := w32 (h + bsig1 e + shaCh e f g + K256.getD t 0 + W.getD t 0)
    let T2 := w32 (bsig0 a + shaMaj a b c)
    [w32 (T1 + T2), a, b, c, w32 (d + T1), e, f, g]
  | _ => st

/-- Compress one 64-byte block into the running hash state. -/
def compressBlock (H : List Nat) (block : Bytes) : List Nat :=
  let W := schedule block
  let st := (List.range 64).foldl (compressStep W) H
  List.zipWith (fun h s => w32 (h + s)) H st

/-- The eight 32-bit words of the SHA-256 digest of a message. -/
def sha256words (msg : Bytes) : List Nat :=
  (chunks64 (padMessage msg)).foldl compressBlock H256

/-- Lowercase hexadecimal digit. -/
def hexDigit (n : Nat) : Char := ("0123456789abcdef").data.getD n ('0')

/-- Eight-hex-digit rendering of a 32-bit word. -/
def hexWord (n : Nat) : List Char :=
  (List.range 8).map (fun i => hexDigit (n / 16 ^ (7 - i) % 16))

/-- `hashlib.sha256(msg).hexdigest()`: the 64-character lowercase hex digest. -/
def sha256hex (msg : Bytes) : String :=
  String.mk ((sha256words msg).foldl (fun acc wrd => acc ++ hexWord wrd) [])

/-! ## Base64 (`base64.b64encode` / `base64.b64decode`) -/

/-- The base64 alphabet. -/
def b64chars : List Char :=
  ("ABCDEFGHIJKLMNOPQRSTUVWXYZabcdefghijklmnopqrstuvwxyz0123456789+/").data

/-- Base64-encode, three input bytes at a time (fuel-based). -/
def b64encodeAux : Nat → Bytes → List Char
  | 0, _ => []
  | _, [] => []
  | _ + 1, [b1] =>
    let n := b1 * 65536
    [b64chars.getD (n / 262144 % 64) ('A'), b64chars.getD (n / 4096 % 64) ('A'), '=', '=']
  | _ + 1, [b1, b2] =>
    let n := b1 * 65536 + b2 * 256
    [b64chars.getD (n / 262144 % 64) ('A'), b64chars.getD (n / 4096 % 64) ('A'),
     b64chars.getD (n / 64 % 64) ('A'), '=']
  | fuel + 1, b1 :: b2 :: b3 :: rest =>
    let n := b1 * 65536 + b2 * 256 + b3
    b64chars.getD (n / 262144 % 64) ('A') :: b64chars.getD (n / 4096 % 64) ('A') ::
      b64chars.getD (n / 64 % 64) ('A') :: b64chars.getD (n % 64) ('A') ::
        b64encodeAux fuel rest

/-- `base64.b64encode(b).decode()`: the base64 rendering of a byte string. -/
def b64encode (b : Bytes) : String := String.mk (b64encodeAux b.length b)

/-- Index of a character in the base64 alphabet. -/
def b64charIndex (c : Char) : Option Nat :=
  let i := b64chars.indexOf c
  if i < 64 then some i else none

/-- Regroup base64 sextets into bytes. -/
def sextetsToBytes : List Nat → Bytes
  | [] => []
  | [_] => []
  | [s1, s2] => [s1 * 4 + s2 / 16]
  | [s1, s2, s3] => [s1 * 4 + s2 / 16, s2 % 16 * 16 + s3 / 4]
  | s1 :: s2 :: s3 :: s4 :: rest =>
    (s1 * 4 + s2 / 16) :: (s2 % 16 * 16 + s3 / 4) :: (s3 % 4 * 64 + s4) ::
      sextetsToBytes rest

/-- Base64-decode a character sequence; `none` on an invalid alphabet
character. -/
def b64decodeChars (cs : List Char) : Option Bytes :=
  match (cs.filter (fun c => c ≠ '=')).mapM b64charIndex with
  | none => none
  | some sx => some (sextetsToBytes sx)

/-- Python `base64.b64decode`: accepts a str or bytes-like argument and
raises `TypeError` on any other runtime type — in particular on an `int`.
An argument of the right type but invalid base64 content raises
`binascii.Error` (a `ValueError`), modelled here as `decodeError`. -/
def pyB64decode : PyValue → Except PyError Bytes
  | PyValue.str s =>
    match b64decodeChars s.data with
    | some b => Except.ok b
    | none => Except.error PyError.decodeError
  | PyValue.bytes b =>
    match b64decodeChars (b.map Char.ofNat) with
    | some r => Except.ok r
    | none => Except.error PyError.decodeError
  | PyValue.int _ => Except.error PyError.typeError
  | PyValue.stream => Except.error PyError.typeError

/-- `hashlib.sha256(v).hexdigest()` at the dynamic-type level: `hashlib`
requires a bytes-like buffer; any other runtime type — in particular the
HTTP response stream handle `resp.raw` — raises `TypeError`. -/
def pySha256hex : PyValue → Except PyError String
  | PyValue.bytes b => Except.ok (sha256hex b)
  | _ => Except.error PyError.typeError

/-! ## Metadata envelope: `json.dumps` + base64 -/

/-- Python `json.dumps` applied to `payload.metadata`.  The argument is the
protobuf map container — a `MutableMapping`, not a `dict` — which the
`json` encoder rejects outright (`TypeError: Object of type
ScalarMapContainer is not JSON serializable`), even when empty; and its
values are `bytes`, which `json` cannot encode either.  The call therefore
raises `TypeError` for every metadata mapping. -/
def jsonDumpsMeta : List (String × Bytes) → Except PyError String
  | _ => Except.error PyError.typeError

/-- The bytes of `s.encode()` (exact for the ASCII strings this code
produces). -/
def strBytes (s : String) : Bytes := s.data.map Char.toNat

/-! ## `Payload.ByteSize()`: protobuf encoded length

The Temporal `Payload` message is `map<string,bytes> metadata = 1;
bytes data = 2;`; `ByteSize()` is the length of its protobuf encoding. -/

/-- Number of bytes in the protobuf varint encoding of `n` (fuel-based so
the definition kernel-reduces). -/
def varintSizeAux : Nat → Nat → Nat
  | 0, _ => 1
  | fuel + 1, n => if n < 128 then 1 else 1 + varintSizeAux fuel (n / 128)

/-- Number of bytes in the protobuf varint encoding of `n`. -/
def varintSize (n : Nat) : Nat := varintSizeAux n n

/-- Encoded size of a length-delimited protobuf field with a one-byte tag. -/
def lenDelimSize (len : Nat) : Nat := 1 + varintSize len + len

/-- Encoded size of the interior of one `metadata` map-entry submessage
(proto3 omits default-valued fields, so empty keys and values contribute
nothing). -/
def entrySize (k : String) (v : Bytes) : Nat :=
  (if k.utf8ByteSize = 0 then 0 else lenDelimSize k.utf8ByteSize) +
    (if v.length = 0 then 0 else lenDelimSize v.length)

/-- `payload.ByteSize()`: the full protobuf-encoded length of the payload. -/
def byteSize (p : Payload) : Nat :=
  (p.metadata.map (fun kv => lenDelimSize (entrySize kv.1 kv.2))).sum +
    (if p.data.length = 0 then 0 else lenDelimSize p.data.length)

/-! ## Codec configuration (`__init__`) -/

/-- `MIN_LARGE_PAYLOAD_BYTES = 128_000`, the module-level default. -/
def MIN_LARGE_PAYLOAD_BYTES : Nat := 128000

/-- `REMOTE_CODEC_NAME = "temporal.io/remote-codec"`, the marker key. -/
def REMOTE_CODEC_NAME : String := "temporal.io/remote-codec"

/-- The codec's configuration, assigned once in `__init__` (the Python
attribute `namespace` is a Lean keyword, hence the field name `ns`). -/
structure LargePayloadCodec where
  ns : String
  url : String
  min_bytes : Nat
deriving Repr

/-- `__init__` with an explicit `min_bytes` argument. -/
def LargePayloadCodec.init (ns url : String) (min_bytes : Nat) :
    LargePayloadCodec :=
  ⟨ns, url, min_bytes⟩

/-- `__init__` with `min_bytes` left at its default value. -/
def LargePayloadCodec.initDefault (ns url : String) : LargePayloadCodec :=
  ⟨ns, url, MIN_LARGE_PAYLOAD_BYTES⟩

/-! ## The in-band converter (external collaborator)

`self.converter = DefaultPayloadConverter()` comes from the `temporalio`
library, which is not part of this repository.  The definitions below are
modelled from the spec. -/

/-- The `gen.codec_pb2.RemotePayload` reference record:
`{metadata, size, digest, key}`. -/
structure RemotePayload where
  metadata : List (String × Bytes)
  size : Int
  digest : String
  key : String
deriving DecidableEq, Repr

/-- A length-prefixed framing of a byte segment. -/
def lenPrefixed (b : Bytes) : Bytes := b.length :: b

/-- Encode the metadata mapping as a count-prefixed list of framed
key/value segments. -/
def metaBytes (m : List (String × Bytes)) : Bytes :=
  m.length ::
    m.foldr (fun kv acc => lenPrefixed (strBytes kv.1) ++ lenPrefixed kv.2 ++ acc) []

/-- Encode an integer as a sign byte followed by a magnitude. -/
def intBytes : Int → Bytes
  | Int.ofNat n => [0, n]
  | Int.negSucc n => [1, n]

/-- Modelled from the spec: the host runtime's default application-data
encoding (`DefaultPayloadConverter.to_payloads`, an external collaborator)
"turns the record into concrete bytes" — an injective serialization of the
`RemotePayload` record. -/
def serializeRemotePayload (rp : RemotePayload) : Bytes :=
  lenPrefixed (metaBytes rp.metadata) ++ lenPrefixed (intBytes rp.size) ++
    lenPrefixed (strBytes rp.digest) ++ lenPrefixed (strBytes rp.key)

/-- The payload metadata written by the default converter when it encodes a
protobuf message (modelled from the spec; the exact `messageType` value is
immaterial — what matters is which keys the converter writes). -/
def converterMetadata : List (String × Bytes) :=
  [(("encoding"), strBytes ("json/protobuf")),
   (("messageType"), strBytes ("temporal.api.largepayload.RemotePayload"))]

/-- Modelled from the spec: `converter.to_payloads([record])[0]` — the
record serialized "into concrete bytes+metadata".  Note it produces only the
converter's own metadata; it does not add the marker entry. -/
def converterToPayload (rp : RemotePayload) : Payload :=
  ⟨converterMetadata, serializeRemotePayload rp⟩

/-- Split off one length-prefixed segment. -/
def takeSeg : Bytes → Option (Bytes × Bytes)
  | [] => none
  | n :: rest => if n ≤ rest.length then some (rest.take n, rest.drop n) else none

/-- Decode a byte segment back to a string. -/
def bytesToStr (b : Bytes) : String := String.mk (b.map Char.ofNat)

/-- Decode an integer segment. -/
def bytesToInt : Bytes → Option Int
  | [0, n] => some (Int.ofNat n)
  | [1, n] => some (Int.negSucc n)
  | _ => none

/-- Parse `count` framed key/value metadata entries. -/
def parseMetaAux : Nat → Bytes → Option (List (String × Bytes) × Bytes)
  | 0, b => some ([], b)
  | count + 1, b =>
    match takeSeg b with
    | none => none
    | some (kb, b1) =>
      match takeSeg b1 with
      | none => none
      | some (vb, b2) =>
        match parseMetaAux count b2 with
        | none => none
        | some (rest, b3) => some ((bytesToStr kb, vb) :: rest, b3)

/-- Modelled from the spec: deserializing a `RemotePayload` record from the
bytes produced by `serializeRemotePayload`; `none` on malformed input. -/
def deserializeRemotePayload (b : Bytes) : Option RemotePayload :=
  match takeSeg b with
  | none => none
  | some (mb, b1) =>
    match takeSeg b1 with
    | none => none
    | some (sb, b2) =>
      match takeSeg b2 with
      | none => none
      | some (db, b3) =>
        match takeSeg b3 with
        | none => none
        | some (kb, b4) =>
          match mb with
          | [] => none
          | count :: mrest =>
            match parseMetaAux count mrest with
            | none => none
            | some (md, mleft) =>
              match bytesToInt sb with
              | none => none
              | some size =>
                if mleft = [] ∧ b4 = [] then
                  some ⟨md, size, bytesToStr db, bytesToStr kb⟩
                else none

/-- Modelled from the spec:
`converter.from_payloads([payload], type_hints=[RemotePayload])[0]` — the
in-band decoding used on the decode path.  It consults the payload's
`encoding` metadata entry and parses the bytes; any failure raises. -/
def converterFromPayload (p : Payload) : Except PyError RemotePayload :=
  if p.metadata.lookup ("encoding") = some (strBytes ("json/protobuf")) then
    match deserializeRemotePayload p.data with
    | some rp => Except.ok rp
    | none => Except.error PyError.decodeError
  else Except.error PyError.decodeError

/-! ## The remote store and the two physical operations -/

/-- One observable HTTP request issued through the `requests` library. -/
inductive NetCall where
  /-- `requests.put(url, data=body, params=(digest, namespace), headers)`,
  with the base64 metadata header value recorded. -/
  | put (url digest ns b64meta : String) (body : Bytes)
  /-- `requests.get(url, ...)` for a stored key. -/
  | get (url key : String)
deriving DecidableEq, Repr

/-- The remote blob store's observable behaviour: what the server replies to
a `put` (the assigned `key` from the response JSON, or a non-success status
surfaced by `raise_for_status`) and to a `get` (the body bytes, or an
error). -/
structure RemoteStore where
  put : String → String → Bytes → Except PyError String
  get : String → Except PyError Bytes

/-- The replacement payload the offload path constructs and returns:
`converter.to_payloads([RemotePayload(metadata=payload.metadata,
size=len(payload.data), digest=digest, key=key)])[0]`, taken as-is with no
further change. -/
def putResultPayload (payload : Payload) (digest key : String) : Payload :=
  converterToPayload ⟨payload.metadata, (payload.data.length : Int), digest, key⟩

/-- `LargePayloadCodec.putLargePayload`: hash the data, serialize the
metadata header, PUT the bytes, and replace the payload with the converted
reference record.  The header serialization raises `TypeError` for every
metadata mapping (see `jsonDumpsMeta`), so everything after it is dead
code; it is embedded anyway, mirroring the source.  The returned trace
would record the single PUT issued. -/
def putLargePayload (c : LargePayloadCodec) (store : RemoteStore)
    (payload : Payload) : Except PyError (Payload × List NetCall) :=
  match jsonDumpsMeta payload.metadata with
  | Except.error e => Except.error e
  | Except.ok metadata_json =>
    match store.put (("sha256:") ++ sha256hex payload.data) c.ns payload.data with
    | Except.error e => Except.error e
    | Except.ok key =>
      Except.ok
        (putResultPayload payload (("sha256:") ++ sha256hex payload.data) key,
         [NetCall.put (c.url ++ ("v2/blobs/put"))
            (("sha256:") ++ sha256hex payload.data) c.ns
            (b64encode (strBytes metadata_json)) payload.data])

/-- The URL targeted by the `requests.get` call in `getLargePayload`: the
Python code concatenates `self.url + "v2/blobs/put"`. -/
def fetchUrl (c : LargePayloadCodec) : String := c.url ++ ("v2/blobs/put")

/-- `LargePayloadCodec.getLargePayload`: parse the reference record, build
the request headers, GET the blob, recompute the digest and compare.
Faithful to the source, including its slips: `request_params` is the Python
set literal of the two strings `"key"` and `remote_payload.key` (never
consumed); the expected-length header base64-decodes the integer `size`
field; and the digest is recomputed over `resp.raw`, the response stream
handle, rather than over the drained bytes.  (The final `Payload` is also
built with `data=resp.raw`; that line is unreachable — the header step
always raises first — so the returned data is modelled as the body
bytes.) -/
def getLargePayload (c : LargePayloadCodec) (store : RemoteStore)
    (payload : Payload) : Except PyError (Payload × List NetCall) :=
  match converterFromPayload payload with
  | Except.error e => Except.error e
  | Except.ok remote =>
    match pyB64decode (PyValue.int remote.size) with
    | Except.error e => Except.error e
    | Except.ok _expected_len =>
      match store.get remote.key with
      | Except.error e => Except.error e
      | Except.ok body =>
        match pySha256hex PyValue.stream with
        | Except.error e => Except.error e
        | Except.ok h =>
          if ("sha256:") ++ h ≠ remote.digest then Except.error PyError.integrityError
          else
            Except.ok (⟨remote.metadata, body⟩,
              [NetCall.get (fetchUrl c) remote.key])

/-! ## The codec interface: `encode` / `decode` -/

/-- One iteration of the `encode` loop: offload when
`payload.ByteSize() > self.min_bytes`, else pass through. -/
def encodeOne (c : LargePayloadCodec) (store : RemoteStore)
    (payload : Payload) : Except PyError (Payload × List NetCall) :=
  if byteSize payload > c.min_bytes then putLargePayload c store payload
  else Except.ok (payload, [])

/-- One iteration of the `decode` loop: payloads with the remote codec name
present in the metadata are large payloads; all others pass through. -/
def decodeOne (c : LargePayloadCodec) (store : RemoteStore)
    (payload : Payload) : Except PyError (Payload × List NetCall) :=
  if (payload.metadata.lookup REMOTE_CODEC_NAME).isSome then
    getLargePayload c store payload
  else Except.ok (payload, [])

/-- `LargePayloadCodec.encode`: transform each payload in order; the first
raised exception aborts the loop. -/
def encode (c : LargePayloadCodec) (store : RemoteStore) :
    List Payload → Except PyError (List Payload × List NetCall)
  | [] => Except.ok ([], [])
  | p :: ps =>
    match encodeOne c store p with
    | Except.error e => Except.error e
    | Except.ok (q, t) =>
      match encode c store ps with
      | Except.error e => Except.error e
      | Except.ok (qs, ts) => Except.ok (q :: qs, t ++ ts)

/-- `LargePayloadCodec.decode`: transform each payload in order; the first
raised exception aborts the loop. -/
def decode (c : LargePayloadCodec) (store : RemoteStore) :
    List Payload → Except PyError (List Payload × List NetCall)
  | [] => Except.ok ([], [])
  | p :: ps =>
    match decodeOne c store p with
    | Except.error e => Except.error e
    | Except.ok (q, t) =>
      match decode c store ps with
      | Except.error e => Except.error e
      | Except.ok (qs, ts) => Except.ok (q :: qs, t ++ ts)

/-! ## Concrete instances used by the theorems -/

/-- A remote store that accepts every PUT (assigning key `k1`) and returns
an empty body for every GET. -/
def okStore : RemoteStore := ⟨fun _ _ _ => Except.ok ("k1"), fun _ => Except.ok []⟩

/-- A codec with a 5-byte offload threshold. -/
def cSmall : LargePayloadCodec := LargePayloadCodec.init ("ns1") ("http://s/") 5

/-- A codec with the default threshold. -/
def cDefault : LargePayloadCodec := LargePayloadCodec.initDefault ("ns1") ("http://s/")

/-- The default payload value used with `List.getD`. -/
def payloadDefault : Payload := ⟨[], []⟩

/-- A six-byte payload with empty metadata (`ByteSize` 8, above `cSmall`'s
threshold). -/
def bigPayload : Payload := ⟨[], [65, 65, 65, 65, 65, 65]⟩

/-- A payload below the threshold that carries the marker metadata entry. -/
def markerPayload : Payload := ⟨[(REMOTE_CODEC_NAME, [])], []⟩

/-- A payload whose `data` is exactly at `cSmall`'s threshold but whose full
encoded size is above it. -/
def borderPayload : Payload := ⟨[], [1, 1, 1, 1, 1]⟩

/-- A reference record with one (non-UTF8-safe) metadata entry. -/
def rp2 : RemotePayload := ⟨[(("k"), [255])], 6, ("sha256:x"), ("k1")⟩

/-! ## Helper lemmas -/

/-- `converter.from_payloads` only ever raises a decode failure. -/
theorem converterFromPayload_error (p : Payload) (e : PyError)
    (h : converterFromPayload p = Except.error e) : e = PyError.decodeError := by
  unfold converterFromPayload at h
  split at h
  · split at h
    · simp at h
    · injection h with h
      exact h.symm
  · injection h with h
    exact h.symm

/-- `getLargePayload` always raises before reaching the digest comparison:
a `TypeError` (from base64-decoding the integer `size`) when the reference
record parses, a decode failure when it does not. -/
theorem get_always_raises (c : LargePayloadCodec) (store : RemoteStore)
    (p : Payload) :
    getLargePayload c store p = Except.error PyError.typeError ∨
    getLargePayload c store p = Except.error PyError.decodeError := by
  cases h : converterFromPayload p with
  | error e =>
    right
    rw [converterFromPayload_error p e h] at h
    simp [getLargePayload, h]
  | ok remote =>
    left
    simp [getLargePayload, h, pyB64decode]

/-- A successful `putLargePayload` always issues exactly one PUT, so its
trace is never empty. -/
theorem put_never_silent (c : LargePayloadCodec) (store : RemoteStore)
    (p q : Payload) (h : putLargePayload c store p = Except.ok (q, [])) :
    False := by
  unfold putLargePayload at h
  split at h
  · simp at h
  · split at h
    · simp at h
    · simp at h

/-- `String.data` distributes over append. -/
theorem strDataAppend (a b : String) : (a ++ b).data = a.data ++ b.data := by
  cases a
  cases b
  rfl

/-! ## The claims -/

/-- C1 (code bug): the offload round trip cannot complete.  Serializing the
metadata header raises `TypeError` for every metadata mapping, so
`putLargePayload` fails on every input before issuing any request; hence
`encode` of any oversized payload — exhibited on `bigPayload`, whose
encoded size exceeds `cSmall`'s threshold — raises instead of storing.  No
store call and no fetch call is ever performed and nothing, let alone the
original bytes and metadata, is recovered. -/
theorem C1_offload_roundtrip_broken :
    (∀ (c : LargePayloadCodec) (store : RemoteStore) (p : Payload),
      putLargePayload c store p = Except.error PyError.typeError) ∧
    byteSize bigPayload > cSmall.min_bytes ∧
    encode cSmall okStore [bigPayload] = Except.error PyError.typeError :=
  ⟨fun _ _ _ => rfl, by decide, by decide⟩

/-- C2 (code bug): the integrity gate is never reached.  `getLargePayload`
raises on every input before fetching: a `TypeError` (base64-decoding the
integer `size` field) whenever the reference record parses — exhibited on a
concrete well-formed reference payload — and a decode failure otherwise.
It never raises `integrityError` and never returns a payload. -/
theorem C2_integrity_check_never_runs :
    (∀ (c : LargePayloadCodec) (store : RemoteStore) (p : Payload),
      getLargePayload c store p = Except.error PyError.typeError ∨
      getLargePayload c store p = Except.error PyError.decodeError) ∧
    getLargePayload cSmall okStore (converterToPayload rp2) =
      Except.error PyError.typeError :=
  ⟨get_always_raises, by decide⟩

/-- C3 (code bug): the replacement payload the offload path constructs —
`converter.to_payloads([RemotePayload(...)])[0]`, returned as-is — never
carries the marker metadata entry: for every input payload, digest and
key, its metadata lacks `temporal.io/remote-codec`, and `putLargePayload`
contains no insertion of the marker anywhere, so nothing the offload path
could return is recognizable by `decode` as a reference payload. -/
theorem C3_offload_output_lacks_marker :
    ∀ (payload : Payload) (digest key : String),
      (putResultPayload payload digest key).metadata.lookup
        REMOTE_CODEC_NAME = none :=
  fun _ _ _ =>
    (by decide : converterMetadata.lookup REMOTE_CODEC_NAME = none)

/-- C4 counterexample: two concrete payloads refute the claim as stated.
`markerPayload` is below the threshold yet `decode(encode([P]))` fails (its
metadata happens to carry the marker, so decode routes it to the reference
path); `borderPayload` has `data` of 5 bytes — within `cSmall`'s 5-byte
threshold — yet its full encoded size is 7, so `encode` offloads it instead
of returning it unchanged. -/
theorem C4_counterexample :
    byteSize markerPayload ≤ cDefault.min_bytes ∧
    encode cDefault okStore [markerPayload] = Except.ok ([markerPayload], []) ∧
    decode cDefault okStore [markerPayload] = Except.error PyError.decodeError ∧
    borderPayload.data.length ≤ cSmall.min_bytes ∧
    encode cSmall okStore [borderPayload] ≠ Except.ok ([borderPayload], []) := by
  refine ⟨by decide, by decide, by decide, by decide, ?_⟩
  intro h
  unfold encode at h
  rw [show encodeOne cSmall okStore borderPayload =
        putLargePayload cSmall okStore borderPayload from if_pos (by decide)] at h
  cases hp : putLargePayload cSmall okStore borderPayload with
  | error e => rw [hp] at h; simp at h
  | ok qt =>
    obtain ⟨q, t⟩ := qt
    rw [hp] at h
    simp only [encode] at h
    rw [Except.ok.injEq, Prod.mk.injEq] at h
    obtain ⟨h1, h2⟩ := h
    rw [List.append_nil] at h2
    subst h2
    rw [List.cons.injEq] at h1
    exact put_never_silent cSmall okStore borderPayload q (by rw [hp, h1.1])

/-- C4 (amended): for every payload whose full encoded size is at most the
threshold AND whose metadata does not contain the marker key,
`decode(encode([P])) == [P]` exactly, with empty request traces (no network
calls). -/
theorem C4_amended_passthrough_roundtrip (c : LargePayloadCodec)
    (store : RemoteStore) (P : Payload)
    (h1 : byteSize P ≤ c.min_bytes)
    (h2 : P.metadata.lookup REMOTE_CODEC_NAME = none) :
    encode c store [P] = Except.ok ([P], []) ∧
    decode c store [P] = Except.ok ([P], []) := by
  constructor
  · have he : encodeOne c store P = Except.ok (P, []) := by
      unfold encodeOne
      rw [if_neg (by omega)]
    unfold encode
    rw [he]
    rfl
  · have hd : decodeOne c store P = Except.ok (P, []) := by
      unfold decodeOne
      rw [h2]
      simp
    unfold decode
    rw [hd]
    rfl

/-- Witness for the amended C4 at a concrete small payload. -/
theorem C4_amended_witness :
    encode cDefault okStore [⟨[(("a"), [2])], [1]⟩] =
      Except.ok ([⟨[(("a"), [2])], [1]⟩], []) ∧
    decode cDefault okStore [⟨[(("a"), [2])], [1]⟩] =
      Except.ok ([⟨[(("a"), [2])], [1]⟩], []) :=
  C4_amended_passthrough_roundtrip cDefault okStore ⟨[(("a"), [2])], [1]⟩
    (by decide) (by decide)

/-- `byteSize` of a payload with empty metadata. -/
theorem byteSize_nil_meta (d : Bytes) :
    byteSize ⟨[], d⟩ =
      0 + (if d.length = 0 then 0 else lenDelimSize d.length) := rfl

/-- C5: the offload decision compares the payload's full protobuf-encoded
length `ByteSize()` against the configured threshold — a payload passes
through unchanged (with no network call) exactly when its encoded size is at
most `min_bytes` — the threshold defaults to 128000 when not supplied, and
the encoded length genuinely differs from the logical data length: a payload
whose `data` is exactly 128000 bytes is nevertheless offloaded. -/
theorem C5_threshold_uses_encoded_size :
    MIN_LARGE_PAYLOAD_BYTES = 128000 ∧
    (∀ ns url, (LargePayloadCodec.initDefault ns url).min_bytes = 128000) ∧
    (∀ (c : LargePayloadCodec) (store : RemoteStore) (p : Payload),
      encodeOne c store p = Except.ok (p, []) ↔ byteSize p ≤ c.min_bytes) ∧
    (∃ p : Payload, p.data.length ≤ MIN_LARGE_PAYLOAD_BYTES ∧
      byteSize p > MIN_LARGE_PAYLOAD_BYTES) := by
  refine ⟨rfl, fun ns url => rfl, ?_, ?_⟩
  · intro c store p
    constructor
    · intro h
      by_contra hgt
      push_neg at hgt
      unfold encodeOne at h
      rw [if_pos (by omega)] at h
      exact put_never_silent c store p p h
    · intro h
      unfold encodeOne
      rw [if_neg (by omega)]
  · refine ⟨⟨[], List.replicate 128000 0⟩, ?_, ?_⟩
    · show (List.replicate 128000 0).length ≤ _
      rw [List.length_replicate]
      exact Nat.le_refl _
    · show byteSize _ > _
      rw [byteSize_nil_meta, List.length_replicate, if_neg (by omega)]
      unfold lenDelimSize MIN_LARGE_PAYLOAD_BYTES
      omega

/-- The elementwise specification of a successful `encode`: same length,
and the `i`-th output is what `encodeOne` produces from the `i`-th input. -/
theorem encode_ok_spec (c : LargePayloadCodec) (store : RemoteStore) :
    ∀ (ps qs : List Payload) (t : List NetCall),
      encode c store ps = Except.ok (qs, t) →
      qs.length = ps.length ∧
      ∀ i, i < ps.length → ∃ ti,
        encodeOne c store (ps.getD i payloadDefault) =
          Except.ok (qs.getD i payloadDefault, ti) := by
  intro ps
  induction ps with
  | nil =>
    intro qs t h
    unfold encode at h
    rw [Except.ok.injEq, Prod.mk.injEq] at h
    obtain ⟨h1, _⟩ := h
    subst h1
    exact ⟨rfl, fun i hi => absurd hi (by simp)⟩
  | cons p ps ih =>
    intro qs t h
    unfold encode at h
    cases he : encodeOne c store p with
    | error e => rw [he] at h; simp at h
    | ok qt =>
      obtain ⟨q, t1⟩ := qt
      rw [he] at h
      cases hr : encode c store ps with
      | error e => rw [hr] at h; simp at h
      | ok qst =>
        obtain ⟨qs', ts⟩ := qst
        rw [hr] at h
        rw [Except.ok.injEq, Prod.mk.injEq] at h
        obtain ⟨h1, _⟩ := h
        subst h1
        obtain ⟨ihl, ihe⟩ := ih qs' ts hr
        refine ⟨by simp [ihl], ?_⟩
        intro i hi
        cases i with
        | zero => exact ⟨t1, by simpa using he⟩
        | succ n =>
          simp only [List.getD_cons_succ]
          exact ihe n (by simpa using hi)

/-- The elementwise specification of a successful `decode`: same length,
and the `i`-th output is what `decodeOne` produces from the `i`-th input. -/
theorem decode_ok_spec (c : LargePayloadCodec) (store : RemoteStore) :
    ∀ (ps qs : List Payload) (t : List NetCall),
      decode c store ps = Except.ok (qs, t) →
      qs.length = ps.length ∧
      ∀ i, i < ps.length → ∃ ti,
        decodeOne c store (ps.getD i payloadDefault) =
          Except.ok (qs.getD i payloadDefault, ti) := by
  intro ps
  induction ps with
  | nil =>
    intro qs t h
    unfold decode at h
    rw [Except.ok.injEq, Prod.mk.injEq] at h
    obtain ⟨h1, _⟩ := h
    subst h1
    exact ⟨rfl, fun i hi => absurd hi (by simp)⟩
  | cons p ps ih =>
    intro qs t h
    unfold decode at h
    cases he : decodeOne c store p with
    | error e => rw [he] at h; simp at h
    | ok qt =>
      obtain ⟨q, t1⟩ := qt
      rw [he] at h
      cases hr : decode c store ps with
      | error e => rw [hr] at h; simp at h
      | ok qst =>
        obtain ⟨qs', ts⟩ := qst
        rw [hr] at h
        rw [Except.ok.injEq, Prod.mk.injEq] at h
        obtain ⟨h1, _⟩ := h
        subst h1
        obtain ⟨ihl, ihe⟩ := ih qs' ts hr
        refine ⟨by simp [ihl], ?_⟩
        intro i hi
        cases i with
        | zero => exact ⟨t1, by simpa using he⟩
        | succ n =>
          simp only [List.getD_cons_succ]
          exact ihe n (by simpa using hi)

/-- C6: whenever `encode` (resp. `decode`) returns, it returns exactly as
many payloads as it was given, and the `i`-th output is produced from the
`i`-th input — nothing is dropped, merged or reordered. -/
theorem C6_order_and_cardinality (c : LargePayloadCodec) (store : RemoteStore)
    (ps : List Payload) :
    (∀ qs t, encode c store ps = Except.ok (qs, t) →
      qs.length = ps.length ∧
      ∀ i, i < ps.length → ∃ ti,
        encodeOne c store (ps.getD i payloadDefault) =
          Except.ok (qs.getD i payloadDefault, ti)) ∧
    (∀ qs t, decode c store ps = Except.ok (qs, t) →
      qs.length = ps.length ∧
      ∀ i, i < ps.length → ∃ ti,
        decodeOne c store (ps.getD i payloadDefault) =
          Except.ok (qs.getD i payloadDefault, ti)) :=
  ⟨fun qs t h => encode_ok_spec c store ps qs t h,
   fun qs t h => decode_ok_spec c store ps qs t h⟩

/-- A concrete two-payload batch for the C6 witness. -/
def psW : List Payload := [⟨[], [1]⟩, ⟨[(("a"), [2])], []⟩]

/-- Witness for C6 on a concrete two-payload batch. -/
theorem C6_witness :
    psW.length = psW.length ∧
    (∃ ti, encodeOne cDefault okStore (psW.getD 0 payloadDefault) =
      Except.ok (psW.getD 0 payloadDefault, ti)) ∧
    (∃ ti, decodeOne cDefault okStore (psW.getD 1 payloadDefault) =
      Except.ok (psW.getD 1 payloadDefault, ti)) :=
  ⟨((C6_order_and_cardinality cDefault okStore psW).1 psW [] (by decide)).1,
   ((C6_order_and_cardinality cDefault okStore psW).1 psW [] (by decide)).2 0
     (by decide),
   ((C6_order_and_cardinality cDefault okStore psW).2 psW [] (by decide)).2 1
     (by decide)⟩

/-- C7 (code bug): the request `getLargePayload` prepares is not the one
the claim describes — its URL is `{baseURL}v2/blobs/put`, which differs from
`{baseURL}/v2/blobs/get` for every base URL — and the function raises a
`TypeError` (base64-decoding the integer `size` for the expected-length
header) or a decode failure on every input, before any request is sent. -/
theorem C7_fetch_request_malformed :
    (∀ c : LargePayloadCodec,
      fetchUrl c = c.url ++ ("v2/blobs/put") ∧
      fetchUrl c ≠ c.url ++ ("v2/blobs/get")) ∧
    (∀ (c : LargePayloadCodec) (store : RemoteStore) (p : Payload),
      getLargePayload c store p = Except.error PyError.typeError ∨
      getLargePayload c store p = Except.error PyError.decodeError) := by
  constructor
  · intro c
    refine ⟨rfl, ?_⟩
    intro h
    unfold fetchUrl at h
    have hd := congrArg String.data h
    rw [strDataAppend, strDataAppend] at hd
    exact absurd (List.append_cancel_left hd) (by decide)
  · exact fun c store p => get_always_raises c store p

/-- C8 (code bug): the metadata header encoding fails for every non-empty
metadata mapping: the mapping's values are `bytes`, which `json.dumps`
cannot serialize, so building the `X-Temporal-Metadata` header raises
`TypeError` and the whole store operation fails before any request. -/
theorem C8_metadata_header_encoding_raises :
    (∀ (k : String) (v : Bytes) (rest : List (String × Bytes)),
      jsonDumpsMeta ((k, v) :: rest) = Except.error PyError.typeError) ∧
    (∀ (c : LargePayloadCodec) (store : RemoteStore) (k : String) (v : Bytes)
        (rest : List (String × Bytes)) (d : Bytes),
      putLargePayload c store ⟨(k, v) :: rest, d⟩ =
        Except.error PyError.typeError) :=
  ⟨fun _ _ _ => rfl, fun _ _ _ _ _ _ => rfl⟩

/-- C9: decode routes on the mere presence of the marker key — with the key
absent the payload passes through unchanged whatever its bytes are; with the
key present (any value) the payload goes to `getLargePayload`; and the
marker's value is never inspected: two payloads differing only in the
marker's value are decoded identically. -/
theorem C9_marker_presence_routing :
    (∀ (c : LargePayloadCodec) (store : RemoteStore) (p : Payload),
      p.metadata.lookup REMOTE_CODEC_NAME = none →
      decodeOne c store p = Except.ok (p, [])) ∧
    (∀ (c : LargePayloadCodec) (store : RemoteStore) (p : Payload) (v : Bytes),
      p.metadata.lookup REMOTE_CODEC_NAME = some v →
      decodeOne c store p = getLargePayload c store p) ∧
    (∀ (c : LargePayloadCodec) (store : RemoteStore)
        (rest : List (String × Bytes)) (d : Bytes) (v w : Bytes),
      decodeOne c store ⟨(REMOTE_CODEC_NAME, v) :: rest, d⟩ =
      decodeOne c store ⟨(REMOTE_CODEC_NAME, w) :: rest, d⟩) := by
  refine ⟨?_, ?_, ?_⟩
  · intro c store p h
    unfold decodeOne
    rw [h]
    simp
  · intro c store p v h
    unfold decodeOne
    rw [h]
    simp
  · intro c store rest d v w
    have hb : ((("encoding") : String) == REMOTE_CODEC_NAME) = false := by decide
    have hconv : converterFromPayload ⟨(REMOTE_CODEC_NAME, v) :: rest, d⟩ =
        converterFromPayload ⟨(REMOTE_CODEC_NAME, w) :: rest, d⟩ := by
      unfold converterFromPayload
      simp only [List.lookup, hb]
    have hself : ((REMOTE_CODEC_NAME : String) == REMOTE_CODEC_NAME) = true := by
      decide
    unfold decodeOne
    simp only [List.lookup, hself, Option.isSome_some, if_true]
    unfold getLargePayload
    rw [hconv]

/-- Witness for C9: a concrete payload without the marker passes through,
and a concrete payload carrying the marker with an empty value is routed to
`getLargePayload`. -/
theorem C9_witness :
    decodeOne cDefault okStore bigPayload = Except.ok (bigPayload, []) ∧
    decodeOne cDefault okStore markerPayload =
      getLargePayload cDefault okStore markerPayload :=
  ⟨(C9_marker_presence_routing).1 cDefault okStore bigPayload (by decide),
   (C9_marker_presence_routing).2.1 cDefault okStore markerPayload [] (by decide)⟩

end LPC
